import Mathlib

/-!
Shallow embedding of the `era5vis` cache/request/hash subsystem:

* `era5vis/utils/hashing.py` — `request_hash`
* `era5vis/data_access/era5_request.py` — `Era5Request`, `Era5Request.to_dict`
* `era5vis/data_access/era5_cache.py` — `ALL_PRESSURE_LEVELS`,
  `Era5Cache.get_analysis_plots_data`

Python dictionaries are embedded as association lists in insertion order;
JSON-serializable values as the inductive `JVal` (the fragment the program
uses: strings, integers, nested sequences).  `json.dumps(-, sort_keys=True)`
is embedded by sorting the association list by key (stable insertion sort,
lexicographic string order, matching CPython's `sorted` on `str`) and
rendering with the default separators.  `hashlib.sha256` is embedded by a
full SHA-256 implementation over byte lists (naturals `< 256`).
-/

/-- Characters of the decimal digit `n < 10` (code point 48 + n). -/
def digitChar (n : Nat) : Char := Char.ofNat (48 + n)

/-- Lowercase hexadecimal digit character for `n < 16`. -/
def hexDigitChar (n : Nat) : Char :=
  Char.ofNat (if n < 10 then 48 + n else 87 + n)

/-- Fuel-driven digit expansion; with fuel above `n` it yields the decimal
digits of `n`, most significant first, no leading zeros. -/
def natDecListAux : Nat → Nat → List Char
  | 0, _ => []
  | fuel + 1, n =>
    if n < 10 then [digitChar n]
    else natDecListAux fuel (n / 10) ++ [digitChar (n % 10)]

/-- Decimal digits of a natural number, most significant first, no leading
zeros (CPython `str` on a non-negative `int`). -/
def natDecList (n : Nat) : List Char := natDecListAux (n + 1) n

/-- Decimal string of a natural number. -/
def natDec (n : Nat) : String := ⟨natDecList n⟩

/-- Decimal string of an integer, with a leading minus sign when negative
(CPython `str` on an `int`). -/
def intDec (i : Int) : String :=
  if i < 0 then "-" ++ natDec i.natAbs else natDec i.toNat

example : natDec 0 = "0" := by decide
example : natDec 2025 = "2025" := by decide
example : intDec (-20) = "-20" := by decide

/-- Opening curly brace character (written by code point to keep the file
free of brace literals). -/
def lbrace : Char := Char.ofNat 123

/-- Closing curly brace character. -/
def rbrace : Char := Char.ofNat 125

/-- JSON-serializable values, in the fragment this program stores in request
dictionaries: strings, integers and (nested) sequences.  Python dictionaries
are represented at the top level as association lists in insertion order. -/
inductive JVal where
  | str : String → JVal
  | int : Int → JVal
  | arr : List JVal → JVal

/-- Four fixed-width lowercase hexadecimal digits of `n % 65536`, as used by
CPython's `\u` escapes. -/
def hex4 (n : Nat) : List Char :=
  [hexDigitChar (n / 4096 % 16), hexDigitChar (n / 256 % 16),
   hexDigitChar (n / 16 % 16), hexDigitChar (n % 16)]

/-- CPython `json` escaping of one character with `ensure_ascii=True`: short
escapes for quote, backslash and the common control characters, `\uXXXX` for
the other characters outside the printable ASCII range, surrogate pairs for
code points above `0xFFFF`. -/
def escapeChar (c : Char) : List Char :=
  if c = '"' then ['\\', '"']
  else if c = '\\' then ['\\', '\\']
  else if c = '\n' then ['\\', 'n']
  else if c = '\r' then ['\\', 'r']
  else if c = '\t' then ['\\', 't']
  else if c.toNat = 8 then ['\\', 'b']
  else if c.toNat = 12 then ['\\', 'f']
  else if 32 ≤ c.toNat ∧ c.toNat ≤ 126 then [c]
  else if c.toNat < 65536 then '\\' :: 'u' :: hex4 c.toNat
  else
    let v := c.toNat - 65536
    ('\\' :: 'u' :: hex4 (55296 + v / 1024)) ++ ('\\' :: 'u' :: hex4 (56320 + v % 1024))

/-- JSON string literal: double quotes around the escaped characters. -/
def renderJStr (s : String) : List Char :=
  '"' :: ((s.data.map escapeChar).flatten ++ ['"'])

mutual
/-- Rendering of a JSON value with CPython's default separators: `", "`
between sequence items, decimal integers, escaped string literals. -/
def renderJVal : JVal → List Char
  | .str s => renderJStr s
  | .int n => (intDec n).data
  | .arr xs => '[' :: (renderJList xs ++ [']'])

/-- Comma-and-space separated rendering of a list of JSON values. -/
def renderJList : List JVal → List Char
  | [] => []
  | [x] => renderJVal x
  | x :: y :: xs => renderJVal x ++ ',' :: ' ' :: renderJList (y :: xs)
end

/-- Rendering of one `"key": value` member of a JSON object. -/
def renderPair (p : String × JVal) : List Char :=
  renderJStr p.1 ++ ':' :: ' ' :: renderJVal p.2

/-- Comma-and-space separated rendering of the members of a JSON object. -/
def renderPairList : List (String × JVal) → List Char
  | [] => []
  | [p] => renderPair p
  | p :: q :: rest => renderPair p ++ ',' :: ' ' :: renderPairList (q :: rest)

/-- Rendering of a JSON object from an already-ordered association list. -/
def renderMapping (m : List (String × JVal)) : List Char :=
  lbrace :: (renderPairList m ++ [rbrace])

/-- Lexicographic code-point comparison of character lists: the order
CPython uses to compare `str` values (and hence to sort dictionary keys
under `sort_keys=True`).  `lexLe a b = true` means `a ≤ b`. -/
def lexLe : List Char → List Char → Bool
  | [], _ => true
  | _ :: _, [] => false
  | a :: as, b :: bs =>
    if a.toNat < b.toNat then true
    else if b.toNat < a.toNat then false
    else lexLe as bs

/-- Key order on association-list members: compare the keys as CPython
compares strings. -/
def keyLe (a b : String × JVal) : Prop := lexLe a.1.data b.1.data = true

instance : DecidableRel keyLe := fun a b => by unfold keyLe; infer_instance

/-- Stable sort of the association list by key, in the lexicographic
code-point order CPython's `sorted` uses on `str`. -/
def sortByKey (m : List (String × JVal)) : List (String × JVal) :=
  List.insertionSort keyLe m

/-- Embedding of `json.dumps(request, sort_keys=True)` for a dictionary with
string keys: members sorted by key, default separators, ASCII output. -/
def jsonDumpsSortKeys (m : List (String × JVal)) : String :=
  ⟨renderMapping (sortByKey m)⟩

/-- Bytes of the UTF-8 encoding of an ASCII string; `jsonDumpsSortKeys`
output is pure ASCII (`ensure_ascii=True`), so `.encode()` sends each
character to its code point. -/
def asciiBytes (s : String) : List Nat := s.data.map Char.toNat

/-- The 32-bit modulus, `2 ^ 32`. -/
def w32 : Nat := 4294967296

/-- Right rotation of a 32-bit word by `n` places. -/
def rotr32 (n x : Nat) : Nat :=
  ((x >>> n) ||| (x <<< (32 - n))) % w32

/-- SHA-256 `Ch` function. -/
def shaCh (x y z : Nat) : Nat := (x &&& y) ^^^ ((x ^^^ 4294967295) &&& z)

/-- SHA-256 `Maj` function. -/
def shaMaj (x y z : Nat) : Nat := (x &&& y) ^^^ (x &&& z) ^^^ (y &&& z)

/-- SHA-256 big sigma 0. -/
def bigSigma0 (x : Nat) : Nat := rotr32 2 x ^^^ rotr32 13 x ^^^ rotr32 22 x

/-- SHA-256 big sigma 1. -/
def bigSigma1 (x : Nat) : Nat := rotr32 6 x ^^^ rotr32 11 x ^^^ rotr32 25 x

/-- SHA-256 small sigma 0. -/
def smallSigma0 (x : Nat) : Nat := rotr32 7 x ^^^ rotr32 18 x ^^^ (x >>> 3)

/-- SHA-256 small sigma 1. -/
def smallSigma1 (x : Nat) : Nat := rotr32 17 x ^^^ rotr32 19 x ^^^ (x >>> 10)

/-- SHA-256 round constants (the standard table, written in decimal). -/
def shaK : List Nat :=
  [1116352408, 1899447441, 3049323471, 3921009573,
   961987163, 1508970993, 2453635748, 2870763221,
   3624381080, 310598401, 607225278, 1426881987,
   1925078388, 2162078206, 2614888103, 3248222580,
   3835390401, 4022224774, 264347078, 604807628,
   770255983, 1249150122, 1555081692, 1996064986,
   2554220882, 2821834349, 2952996808, 3210313671,
   3336571891, 3584528711, 113926993, 338241895,
   666307205, 773529912, 1294757372, 1396182291,
   1695183700, 1986661051, 2177026350, 2456956037,
   2730485921, 2820302411, 3259730800, 3345764771,
   3516065817, 3600352804, 4094571909, 275423344,
   430227734, 506948616, 659060556, 883997877,
   958139571, 1322822218, 1537002063, 1747873779,
   1955562222, 2024104815, 2227730452, 2361852424,
   2428436474, 2756734187, 3204031479, 3329325298]

/-- SHA-256 initial hash words (the standard table, written in decimal). -/
def shaH0 : List Nat :=
  [1779033703, 3144134277, 1013904242, 2773480762,
   1359893119, 2600822924, 528734635, 1541459225]

/-- Big-endian eight-byte encoding of a natural number below `2 ^ 64`. -/
def be64 (n : Nat) : List Nat :=
  [n >>> 56 % 256, n >>> 48 % 256, n >>> 40 % 256, n >>> 32 % 256,
   n >>> 24 % 256, n >>> 16 % 256, n >>> 8 % 256, n % 256]

/-- SHA-256 padding: append `0x80`, zero bytes up to 56 modulo 64, then the
bit length as eight big-endian bytes. -/
def sha256Pad (msg : List Nat) : List Nat :=
  msg ++ 128 :: (List.replicate ((119 - msg.length % 64) % 64) 0
    ++ be64 (8 * msg.length))

/-- Big-endian packing of bytes into 32-bit words, four bytes per word. -/
def bytesToWords : List Nat → List Nat
  | b0 :: b1 :: b2 :: b3 :: rest =>
    (((b0 * 256 + b1) * 256 + b2) * 256 + b3) :: bytesToWords rest
  | _ => []

/-- Fuel-driven split of the padded message into 64-byte blocks. -/
def chunks64Aux : Nat → List Nat → List (List Nat)
  | 0, _ => []
  | _, [] => []
  | fuel + 1, l => l.take 64 :: chunks64Aux fuel (l.drop 64)

/-- Split a byte list into blocks of 64 bytes. -/
def chunks64 (l : List Nat) : List (List Nat) := chunks64Aux l.length l

/-- Message-schedule extension: append `k` further words by the SHA-256
recurrence over the last sixteen entries. -/
def extendW (w : List Nat) : Nat → List Nat
  | 0 => w
  | k + 1 =>
    let n := w.length
    let nw := (smallSigma1 (w.getD (n - 2) 0) + w.getD (n - 7) 0
      + smallSigma0 (w.getD (n - 15) 0) + w.getD (n - 16) 0) % w32
    extendW (w ++ [nw]) k

/-- Working state of the SHA-256 compression function. -/
structure ShaState where
  a : Nat
  b : Nat
  c : Nat
  d : Nat
  e : Nat
  f : Nat
  g : Nat
  h : Nat

/-- One SHA-256 compression round for round constant `k` and schedule
word `w`. -/
def shaRound (st : ShaState) (k w : Nat) : ShaState :=
  let t1 := (st.h + bigSigma1 st.e + shaCh st.e st.f st.g + k + w) % w32
  let t2 := (bigSigma0 st.a + shaMaj st.a st.b st.c) % w32
  ⟨(t1 + t2) % w32, st.a, st.b, st.c, (st.d + t1) % w32, st.e, st.f, st.g⟩

/-- Process one 64-byte block, updating the eight hash words. -/
def processBlock (hs : List Nat) (block : List Nat) : List Nat :=
  let w := extendW (bytesToWords block) 48
  let st0 : ShaState :=
    ⟨hs.getD 0 0, hs.getD 1 0, hs.getD 2 0, hs.getD 3 0,
     hs.getD 4 0, hs.getD 5 0, hs.getD 6 0, hs.getD 7 0⟩
  let st := (shaK.zip w).foldl (fun s p => shaRound s p.1 p.2) st0
  [(hs.getD 0 0 + st.a) % w32, (hs.getD 1 0 + st.b) % w32,
   (hs.getD 2 0 + st.c) % w32, (hs.getD 3 0 + st.d) % w32,
   (hs.getD 4 0 + st.e) % w32, (hs.getD 5 0 + st.f) % w32,
   (hs.getD 6 0 + st.g) % w32, (hs.getD 7 0 + st.h) % w32]

/-- SHA-256 digest of a byte list, as eight 32-bit words. -/
def sha256Words (msg : List Nat) : List Nat :=
  (chunks64 (sha256Pad msg)).foldl processBlock shaH0

/-- Fixed-width eight-character lowercase hexadecimal rendering of a 32-bit
word. -/
def word32HexChars (n : Nat) : List Char :=
  (List.range 8).map (fun i => hexDigitChar (n >>> (4 * (7 - i)) % 16))

/-- Lowercase hexadecimal digest string (CPython `hexdigest()`), 64
characters. -/
def sha256Hex (msg : List Nat) : String :=
  ⟨((sha256Words msg).map word32HexChars).flatten⟩

/-- Character-level prefix of a string: CPython slicing `s[:n]` on an ASCII
string. -/
def strTake (s : String) (n : Nat) : String := ⟨s.data.take n⟩

example : jsonDumpsSortKeys [] = ⟨[lbrace, rbrace]⟩ := by decide
example :
    jsonDumpsSortKeys [("b", .int 1), ("a", .arr [.str "x", .str "y"])]
      = ⟨lbrace :: ("\"a\": [\"x\", \"y\"], \"b\": 1".data ++ [rbrace])⟩ := by decide

/-- Embedding of `era5vis.utils.hashing.request_hash`: serialize the request
dictionary with `json.dumps(request, sort_keys=True)`, encode to bytes, take
the SHA-256 hex digest, and keep its first 12 characters. -/
def request_hash (request : List (String × JVal)) : String :=
  strTake (sha256Hex (asciiBytes (jsonDumpsSortKeys request))) 12

set_option maxRecDepth 100000 in
example : request_hash [] = "44136fa355b3" := by decide

/-- Left zero-padding of a string to width `w` (CPython `f"{n:0wd}"` for a
non-negative integer, which never truncates). -/
def zfill (w : Nat) (s : String) : String :=
  ⟨List.replicate (w - s.data.length) '0' ++ s.data⟩

/-- CPython `f"{n:04d}"` for a natural number. -/
def fmt4 (n : Nat) : String := zfill 4 (natDec n)

/-- CPython `f"{n:02d}"` for a natural number. -/
def fmt2 (n : Nat) : String := zfill 2 (natDec n)

/-- Calendar fields of a parsed pandas timestamp, as the cache reads them:
`t.year`, `t.month`, `t.day`, `t.hour`; the minute is carried to show that
sub-hour information is dropped by the request construction. -/
structure Timestamp where
  year : Nat
  month : Nat
  day : Nat
  hour : Nat
  minute : Nat
deriving DecidableEq

/-- A Python scalar usable as a pressure level: the program passes `int` or
`str` values, and `str(lvl)` maps each to its string form. -/
inductive PyLevel where
  | int : Int → PyLevel
  | str : String → PyLevel
deriving DecidableEq

/-- CPython `str(lvl)` on a level scalar. -/
def PyLevel.toStr : PyLevel → String
  | .int n => intDec n
  | .str s => s

/-- The `level` argument of `get_analysis_plots_data`: `None`, a scalar, or
a list/tuple of scalars. -/
inductive LevelArg where
  | none : LevelArg
  | scalar : PyLevel → LevelArg
  | seq : List PyLevel → LevelArg

/-- Embedding of `ALL_PRESSURE_LEVELS` from `era5_cache.py`: the complete
list of ERA5 pressure levels used for vertical profiles. -/
def ALL_PRESSURE_LEVELS : List String :=
  ["1000", "975", "950", "925", "900", "875", "850",
   "825", "800", "775", "750", "700", "650", "600",
   "550", "500", "450", "400", "350", "300",
   "250", "225", "200", "175", "150", "125", "100"]

/-- Level normalization branch of `get_analysis_plots_data`: `None` gives
the full fixed vocabulary, a list or tuple maps `str` over its elements in
the given order, and any other (scalar) value gives the one-element list of
its string form. -/
def normalizeLevels : LevelArg → List String
  | .none => ALL_PRESSURE_LEVELS
  | .seq vs => vs.map PyLevel.toStr
  | .scalar v => [v.toStr]

/-- Embedding of the `Era5Request` dataclass from `era5_request.py`.  The
constructor stores every parameter unmodified; the `variable` field holds
whatever the caller passed (the class performs no validation), so it is
typed as an arbitrary JSON value. -/
structure Era5Request where
  product_type : List String
  «variable» : JVal
  year : List String
  month : List String
  day : List String
  time : List String
  pressure_level : List String
  data_format : String
  download_format : String
  area : List Int

/-- Embedding of `Era5Request.to_dict`: the CDS-API dictionary with the ten
fixed keys in source order, each field handed over unmodified (lists of
strings and the integer area become the corresponding JSON sequences). -/
def Era5Request.to_dict (r : Era5Request) : List (String × JVal) :=
  [("product_type", .arr (r.product_type.map .str)),
   ("variable", r.«variable»),
   ("year", .arr (r.year.map .str)),
   ("month", .arr (r.month.map .str)),
   ("day", .arr (r.day.map .str)),
   ("time", .arr (r.time.map .str)),
   ("pressure_level", .arr (r.pressure_level.map .str)),
   ("data_format", .str r.data_format),
   ("download_format", .str r.download_format),
   ("area", .arr (r.area.map .int))]

/-- Filesystem state visible to the cache: the files that exist, as a list
of path/content pairs.  The cache never reads contents, so the theorems
hold for arbitrary contents. -/
structure FS where
  files : List (String × String)
deriving DecidableEq

/-- Embedding of `pathlib.Path.exists` on this filesystem state. -/
def FS.pathExists (fs : FS) (p : String) : Bool :=
  fs.files.any (fun f => f.1 == p)

/-- Python exceptions the cache layer can surface: the explicit
`ValueError` and `RuntimeError` raises of `get_analysis_plots_data`, and a
parse error propagated from `pd.to_datetime`. -/
inductive PyError where
  | valueError : String → PyError
  | runtimeError : String → PyError
  | parseError : PyError
deriving DecidableEq

/-- Request construction step of `get_analysis_plots_data`: the
`Era5Request(...)` call with its fixed product type, formats and bounding
box, the zero-padded calendar fields of the parsed timestamp, the truncated
top-of-hour time, and the normalized pressure levels. -/
def buildRequest («variables» : JVal) (level : LevelArg) (t : Timestamp) :
    Era5Request :=
  ⟨["reanalysis"], «variables», [fmt4 t.year], [fmt2 t.month], [fmt2 t.day],
   [fmt2 t.hour ++ ":00"], normalizeLevels level, "netcdf", "unarchived",
   [70, -20, 30, 50]⟩

/-- The `req_dict` of `get_analysis_plots_data`: the constructed request
converted by `to_dict`. -/
def canonicalMapping («variables» : JVal) (level : LevelArg) (t : Timestamp) :
    List (String × JVal) :=
  (buildRequest «variables» level t).to_dict

/-- The cache key of `get_analysis_plots_data`: `request_hash(req_dict)`. -/
def cacheKey («variables» : JVal) (level : LevelArg) (t : Timestamp) : String :=
  request_hash (canonicalMapping «variables» level t)

/-- The target path of `get_analysis_plots_data`:
`cache_dir / f"era5_-key-.nc"` (pathlib join written as a slash). -/
def cacheTarget (cache_dir : String) («variables» : JVal) (level : LevelArg)
    (t : Timestamp) : String :=
  cache_dir ++ "/" ++ ("era5_" ++ cacheKey «variables» level t ++ ".nc")

/-- Embedding of `Era5Cache.get_analysis_plots_data` from `era5_cache.py`.

The two external collaborators are passed in explicitly: `to_datetime`
stands for `pandas.to_datetime` (a third-party parser; `.error` is its
raised parse exception) and `download_era5_data` for the CDS download
function, acting on the filesystem state.  The result carries the returned
path, the filesystem state after the call, and how many times the download
collaborator was invoked; errors are the raised exceptions.

Source order is preserved: mandatory-time check, time parse, level
normalization, request construction, hashing, target computation,
existence check, download, post-download verification. -/
def get_analysis_plots_data
    (to_datetime : String → Except Unit Timestamp)
    (download_era5_data : List (String × JVal) → String → FS → FS)
    (cache_dir : String) («variables» : JVal) (level : LevelArg)
    (time : Option String) (fs : FS) :
    Except PyError (String × FS × Nat) :=
  match time with
  | Option.none => .error (.valueError "time not available")
  | some timeStr =>
    match to_datetime timeStr with
    | .error _ => .error .parseError
    | .ok t =>
      let req_dict := canonicalMapping «variables» level t
      let key := request_hash req_dict
      let target := cache_dir ++ "/" ++ ("era5_" ++ key ++ ".nc")
      if fs.pathExists target then .ok (target, fs, 0)
      else
        let fs2 := download_era5_data req_dict target fs
        if fs2.pathExists target then .ok (target, fs2, 1)
        else .error (.runtimeError ("ERA5 download failed: " ++ target))

/-- Strict key order: keys weakly ordered and distinct.  On association
lists with pairwise-distinct keys a sorted list is strictly sorted, which
pins the sorted order down uniquely. -/
def keyLt (a b : String × JVal) : Prop := keyLe a b ∧ a.1 ≠ b.1

/-- Path component of a resolve result, when the call succeeded. -/
def resolvedPath (r : Except PyError (String × FS × Nat)) : Option String :=
  match r with
  | .ok p => some p.1
  | .error _ => Option.none

/-- Test stand-in for `pandas.to_datetime`: parses the two timestamp
strings the repository's tests use and rejects everything else. -/
def mockToDatetime (s : String) : Except Unit Timestamp :=
  if s = "2025-03-02T00:00" then .ok ⟨2025, 3, 2, 0, 0⟩
  else if s = "2025-12-01T00:00" then .ok ⟨2025, 12, 1, 0, 0⟩
  else .error ()

/-- Test download collaborator that writes the target file, as the patched
downloader in the repository's tests does. -/
def mockDownload (_req : List (String × JVal)) (target : String) (fs : FS) :
    FS :=
  ⟨(target, "netcdf bytes") :: fs.files⟩

/-- Test download collaborator that returns without creating the target
file (a failing download). -/
def mockDownloadNoop (_req : List (String × JVal)) (_target : String)
    (fs : FS) : FS := fs

/-- Empty filesystem state. -/
def emptyFS : FS := ⟨[]⟩

/-- The variables argument of the spec's concrete scenario, a one-element
list holding the temperature variable name. -/
def varT : JVal := .arr [.str "t"]

/-- The parsed form of the scenario timestamp `2025-03-02T00:00`. -/
def tsMarch : Timestamp := ⟨2025, 3, 2, 0, 0⟩

/-- Filesystem state holding exactly the scenario's cached target file. -/
def hitFS : FS :=
  ⟨[(cacheTarget "cache" varT (.scalar (.int 850)) tsMarch, "cached bytes")]⟩

/-! Theorems.  First the order theory of the key sort: `lexLe` is a total
preorder that is antisymmetric on the underlying lists, so sorting an
association list with pairwise-distinct keys is order-determined. -/

/-- Characters with equal code points are equal. -/
theorem charToNatInj {a b : Char} (h : a.toNat = b.toNat) : a = b :=
  Char.ofNat_toNat a ▸ Char.ofNat_toNat b ▸ congrArg Char.ofNat h

/-- Strings with equal character lists are equal. -/
theorem stringDataInj {s t : String} (h : s.data = t.data) : s = t := by
  cases s; cases t; cases h; rfl

/-- The lexicographic comparison is total. -/
theorem lexLe_total : ∀ as bs : List Char,
    lexLe as bs = true ∨ lexLe bs as = true
  | [], _ => Or.inl rfl
  | _ :: _, [] => Or.inr rfl
  | a :: as, b :: bs => by
    rcases Nat.lt_trichotomy a.toNat b.toNat with h | h | h
    · exact Or.inl (by simp [lexLe, h])
    · rcases lexLe_total as bs with ih | ih
      · exact Or.inl (by simp [lexLe, h, ih])
      · exact Or.inr (by simp [lexLe, h.symm, ih])
    · exact Or.inr (by simp [lexLe, h])

/-- The lexicographic comparison is transitive. -/
theorem lexLe_trans : ∀ as bs cs : List Char,
    lexLe as bs = true → lexLe bs cs = true → lexLe as cs = true
  | [], _, _, _, _ => rfl
  | _ :: _, [], _, h, _ => by simp [lexLe] at h
  | _ :: _, _ :: _, [], _, h => by simp [lexLe] at h
  | a :: as, b :: bs, c :: cs, h1, h2 => by
    simp only [lexLe] at h1 h2 ⊢
    rcases Nat.lt_trichotomy a.toNat b.toNat with hab | hab | hab
    · rcases Nat.lt_trichotomy b.toNat c.toNat with hbc | hbc | hbc
      · simp [show a.toNat < c.toNat by omega]
      · simp [show a.toNat < c.toNat by omega]
      · simp [hbc, show ¬ b.toNat < c.toNat by omega] at h2
    · rcases Nat.lt_trichotomy b.toNat c.toNat with hbc | hbc | hbc
      · simp [show a.toNat < c.toNat by omega]
      · have h1' : lexLe as bs = true := by
          simpa [show ¬ a.toNat < b.toNat by omega,
            show ¬ b.toNat < a.toNat by omega] using h1
        have h2' : lexLe bs cs = true := by
          simpa [show ¬ b.toNat < c.toNat by omega,
            show ¬ c.toNat < b.toNat by omega] using h2
        simp [show ¬ a.toNat < c.toNat by omega,
          show ¬ c.toNat < a.toNat by omega, lexLe_trans as bs cs h1' h2']
      · simp [hbc, show ¬ b.toNat < c.toNat by omega] at h2
    · simp [hab, show ¬ a.toNat < b.toNat by omega] at h1

/-- The lexicographic comparison is antisymmetric. -/
theorem lexLe_antisymm : ∀ as bs : List Char,
    lexLe as bs = true → lexLe bs as = true → as = bs
  | [], [], _, _ => rfl
  | [], _ :: _, _, h => by simp [lexLe] at h
  | _ :: _, [], h, _ => by simp [lexLe] at h
  | a :: as, b :: bs, h1, h2 => by
    simp only [lexLe] at h1 h2
    rcases Nat.lt_trichotomy a.toNat b.toNat with hab | hab | hab
    · simp [hab, show ¬ b.toNat < a.toNat by omega] at h2
    · have h1' : lexLe as bs = true := by
        simpa [show ¬ a.toNat < b.toNat by omega,
          show ¬ b.toNat < a.toNat by omega] using h1
      have h2' : lexLe bs as = true := by
        simpa [show ¬ a.toNat < b.toNat by omega,
          show ¬ b.toNat < a.toNat by omega] using h2
      rw [charToNatInj hab, lexLe_antisymm as bs h1' h2']
    · simp [hab, show ¬ a.toNat < b.toNat by omega] at h1

instance : IsTotal (String × JVal) keyLe :=
  ⟨fun a b => lexLe_total a.1.data b.1.data⟩

instance : IsTrans (String × JVal) keyLe :=
  ⟨fun a b c => lexLe_trans a.1.data b.1.data c.1.data⟩

instance : IsAntisymm (String × JVal) keyLt :=
  ⟨fun a b h1 h2 =>
    absurd (stringDataInj (lexLe_antisymm a.1.data b.1.data h1.1 h2.1)) h1.2⟩

/-- On association lists whose keys are pairwise distinct, the key sort is
determined by the contents alone: two permutations of the same members sort
to the same list. -/
theorem sortByKey_eq_of_perm (m1 m2 : List (String × JVal))
    (hp : m1.Perm m2) (hnd : (m1.map Prod.fst).Nodup) :
    sortByKey m1 = sortByKey m2 := by
  have hperm1 : (sortByKey m1).Perm m1 := List.perm_insertionSort keyLe m1
  have hperm2 : (sortByKey m2).Perm m2 := List.perm_insertionSort keyLe m2
  have hp12 : (sortByKey m1).Perm (sortByKey m2) :=
    hperm1.trans (hp.trans hperm2.symm)
  have hnd2 : (m2.map Prod.fst).Nodup := ((hp.map Prod.fst).nodup_iff).mp hnd
  have hne1 : (sortByKey m1).Pairwise (fun a b => a.1 ≠ b.1) :=
    List.pairwise_map.mp (((hperm1.map Prod.fst).nodup_iff).mpr hnd)
  have hne2 : (sortByKey m2).Pairwise (fun a b => a.1 ≠ b.1) :=
    List.pairwise_map.mp (((hperm2.map Prod.fst).nodup_iff).mpr hnd2)
  have hs1 : (sortByKey m1).Pairwise keyLt :=
    (List.sorted_insertionSort keyLe m1).and hne1
  have hs2 : (sortByKey m2).Pairwise keyLt :=
    (List.sorted_insertionSort keyLe m2).and hne2
  exact List.eq_of_perm_of_sorted hp12 hs1 hs2

/-! Shape facts about the digest pipeline: the hex digest has 64 lowercase
hexadecimal characters, so the truncated identifier has exactly 12. -/

/-- With enough fuel, at most `k` decimal digits are produced for a number
below `10 ^ k`. -/
theorem natDecListAux_length_le : ∀ fuel n k : Nat, n < fuel → n < 10 ^ k →
    1 ≤ k → (natDecListAux fuel n).length ≤ k
  | 0, n, _, h, _, _ => absurd h (Nat.not_lt_zero n)
  | fuel + 1, n, k, hf, hk, hk1 => by
    by_cases h10 : n < 10
    · simpa [natDecListAux, h10] using hk1
    · have hk2 : 2 ≤ k := by
        by_contra hlt
        have : k = 1 := by omega
        subst this
        simp at hk
        omega
      have hdf : n / 10 < fuel := by
        have : n / 10 < n := Nat.div_lt_self (by omega) (by omega)
        omega
      have hdk : n / 10 < 10 ^ (k - 1) := by
        have hpow : 10 ^ (k - 1) * 10 = 10 ^ k := by
          have : k - 1 + 1 = k := by omega
          calc 10 ^ (k - 1) * 10 = 10 ^ (k - 1 + 1) := by rw [pow_succ]
            _ = 10 ^ k := by rw [this]
        exact (Nat.div_lt_iff_lt_mul (by omega)).mpr (by omega)
      have ih := natDecListAux_length_le fuel (n / 10) (k - 1) hdf hdk (by omega)
      simp only [natDecListAux, h10, if_false, List.length_append,
        List.length_cons, List.length_nil]
      omega

/-- A number below `10 ^ k` (with `k ≥ 1`) prints with at most `k` decimal
digits. -/
theorem natDec_length_le (n k : Nat) (h : n < 10 ^ k) (hk : 1 ≤ k) :
    (natDec n).data.length ≤ k :=
  natDecListAux_length_le (n + 1) n k (Nat.lt_succ_self n) h hk

/-- Zero-padding yields the maximum of the width and the raw length. -/
theorem zfill_length (w : Nat) (s : String) :
    (zfill w s).data.length = max w s.data.length := by
  simp [zfill]
  omega

/-- Four-digit formatting of a year up to 9999 gives exactly four
characters. -/
theorem fmt4_length (n : Nat) (h : n ≤ 9999) : (fmt4 n).length = 4 := by
  have hlen : (natDec n).data.length ≤ 4 :=
    natDec_length_le n 4 (by omega) (by omega)
  have hz : (fmt4 n).data.length = max 4 (natDec n).data.length :=
    zfill_length 4 (natDec n)
  show (fmt4 n).data.length = 4
  omega

/-- Two-digit formatting of a calendar field up to 99 gives exactly two
characters. -/
theorem fmt2_length (n : Nat) (h : n ≤ 99) : (fmt2 n).length = 2 := by
  have hlen : (natDec n).data.length ≤ 2 :=
    natDec_length_le n 2 (by omega) (by omega)
  have hz : (fmt2 n).data.length = max 2 (natDec n).data.length :=
    zfill_length 2 (natDec n)
  show (fmt2 n).data.length = 2
  omega

/-- A word renders to exactly eight hexadecimal characters. -/
theorem word32HexChars_length (n : Nat) : (word32HexChars n).length = 8 := by
  simp [word32HexChars]

/-- One compression step yields eight hash words. -/
theorem processBlock_length (hs block : List Nat) :
    (processBlock hs block).length = 8 := rfl

/-- Folding compression steps over any block list keeps eight hash words. -/
theorem foldl_processBlock_length :
    ∀ (bs : List (List Nat)) (hs : List Nat), hs.length = 8 →
      (bs.foldl processBlock hs).length = 8
  | [], _, h => h
  | b :: bs, hs, _ =>
    foldl_processBlock_length bs (processBlock hs b) (processBlock_length hs b)

/-- A SHA-256 digest consists of eight 32-bit words. -/
theorem sha256Words_length (msg : List Nat) :
    (sha256Words msg).length = 8 :=
  foldl_processBlock_length _ shaH0 rfl

/-- Summed hex rendering length: eight characters per word. -/
theorem hexRenderSumLength : ∀ l : List Nat,
    ((l.map word32HexChars).map List.length).sum = 8 * l.length
  | [] => rfl
  | w :: l => by
    simp only [List.map_cons, List.sum_cons, word32HexChars_length,
      List.length_cons]
    rw [hexRenderSumLength l]
    ring

/-- The hex digest string has exactly 64 characters. -/
theorem sha256Hex_data_length (msg : List Nat) :
    (sha256Hex msg).data.length = 64 := by
  show ((sha256Words msg).map word32HexChars).flatten.length = 64
  rw [List.length_flatten, hexRenderSumLength, sha256Words_length]

/-- The truncated request digest has exactly 12 characters. -/
theorem request_hash_length (m : List (String × JVal)) :
    (request_hash m).length = 12 := by
  show ((sha256Hex (asciiBytes (jsonDumpsSortKeys m))).data.take 12).length = 12
  rw [List.length_take, sha256Hex_data_length]
  decide

/-- Every hexadecimal digit character drawn below 16 is one of the sixteen
lowercase hexadecimal characters. -/
theorem hexDigitChar_mem : ∀ n : Nat, n < 16 →
    hexDigitChar n ∈ "0123456789abcdef".data := by decide

/-- Every character of the truncated request digest is a lowercase
hexadecimal digit. -/
theorem request_hash_chars (m : List (String × JVal)) :
    ∀ c ∈ (request_hash m).data, c ∈ "0123456789abcdef".data := by
  intro c hc
  have hc1 : c ∈ (sha256Hex (asciiBytes (jsonDumpsSortKeys m))).data :=
    List.mem_of_mem_take hc
  have hc2 : c ∈ ((sha256Words (asciiBytes (jsonDumpsSortKeys m))).map
      word32HexChars).flatten := hc1
  rcases List.mem_flatten.mp hc2 with ⟨s, hs, hcs⟩
  rcases List.mem_map.mp hs with ⟨w, _, rfl⟩
  rcases List.mem_map.mp hcs with ⟨i, _, rfl⟩
  exact hexDigitChar_mem _ (Nat.mod_lt _ (by omega))

/-! Claim theorems. -/

/-- C1: the request hasher is a pure, deterministic function: it serializes
the mapping with keys sorted lexicographically in a fixed deterministic
encoding, computes a SHA-256 digest over those bytes, and returns the first
12 hexadecimal characters; consequently two mappings with identical
key-to-value content and different key insertion order hash identically. -/
theorem request_hash_deterministic (m1 m2 : List (String × JVal))
    (hperm : m1.Perm m2) (hnd : (m1.map Prod.fst).Nodup) :
    request_hash m1 = request_hash m2 ∧
    (request_hash m1).length = 12 ∧
    ∀ c ∈ (request_hash m1).data, c ∈ "0123456789abcdef".data := by
  refine ⟨?_, request_hash_length m1, request_hash_chars m1⟩
  unfold request_hash jsonDumpsSortKeys
  rw [sortByKey_eq_of_perm m1 m2 hperm hnd]

/-- Witness for C1 at the reordered pair from the repository's hashing
test: same content, different insertion order, equal digests. -/
theorem request_hash_deterministic_witness :
    ([("year", JVal.arr [JVal.str "2022"]),
      ("variable", JVal.arr [JVal.str "t"])].Perm
      [("variable", JVal.arr [JVal.str "t"]),
       ("year", JVal.arr [JVal.str "2022"])]) ∧
    ([("year", JVal.arr [JVal.str "2022"]),
      ("variable", JVal.arr [JVal.str "t"])].map Prod.fst).Nodup ∧
    request_hash [("year", JVal.arr [JVal.str "2022"]),
        ("variable", JVal.arr [JVal.str "t"])]
      = request_hash [("variable", JVal.arr [JVal.str "t"]),
        ("year", JVal.arr [JVal.str "2022"])] :=
  ⟨List.Perm.swap _ _ _, by decide,
   (request_hash_deterministic _ _ (List.Perm.swap _ _ _) (by decide)).1⟩

/-- C4: calling resolve with `time=None` fails immediately with the usage
error `ValueError("time not available")`, independently of the parser, the
downloader and the filesystem state — so before any time parsing,
descriptor construction, hashing or download attempt — and without any
retry. -/
theorem missing_time_rejected
    (to_datetime : String → Except Unit Timestamp)
    (download_era5_data : List (String × JVal) → String → FS → FS)
    (cache_dir : String) («variables» : JVal) (level : LevelArg) (fs : FS) :
    get_analysis_plots_data to_datetime download_era5_data cache_dir
        «variables» level Option.none fs
      = .error (.valueError "time not available") := rfl

/-- C5: level normalization: `None` yields exactly the fixed 27-entry
pressure-level vocabulary from `"1000"` down to `"100"` in its defined
order; a scalar yields the one-element list of its string conversion; a
list yields the element-wise string conversion with order preserved; and
the constructed request carries exactly the normalized levels. -/
theorem level_normalization :
    (normalizeLevels .none = ALL_PRESSURE_LEVELS ∧
     ALL_PRESSURE_LEVELS =
       ["1000", "975", "950", "925", "900", "875", "850",
        "825", "800", "775", "750", "700", "650", "600",
        "550", "500", "450", "400", "350", "300",
        "250", "225", "200", "175", "150", "125", "100"] ∧
     ALL_PRESSURE_LEVELS.length = 27) ∧
    (∀ v : PyLevel, normalizeLevels (.scalar v) = [v.toStr]) ∧
    (∀ vs : List PyLevel, normalizeLevels (.seq vs) = vs.map PyLevel.toStr) ∧
    (∀ («variables» : JVal) (level : LevelArg) (t : Timestamp),
      (buildRequest «variables» level t).pressure_level
        = normalizeLevels level) :=
  ⟨⟨rfl, rfl, rfl⟩, fun _ => rfl, fun _ => rfl, fun _ _ _ => rfl⟩

/-- C6: for every parseable time, resolve builds the canonical mapping with
four-digit year, two-digit month and day, time `["HH:00"]` with sub-hour
parts truncated, fixed `product_type=["reanalysis"]`,
`data_format="netcdf"`, `download_format="unarchived"`, the hardcoded
bounding box, and the target path `cache_dir/era5_<12-hex-digest>.nc`. -/
theorem resolve_canonical_mapping (cache_dir : String) («variables» : JVal)
    (level : LevelArg) (t : Timestamp)
    (hy : t.year ≤ 9999) (hm : t.month ≤ 99) (hd : t.day ≤ 99)
    (hh : t.hour ≤ 99) :
    canonicalMapping «variables» level t =
      [("product_type", .arr [.str "reanalysis"]),
       ("variable", «variables»),
       ("year", .arr [.str (fmt4 t.year)]),
       ("month", .arr [.str (fmt2 t.month)]),
       ("day", .arr [.str (fmt2 t.day)]),
       ("time", .arr [.str (fmt2 t.hour ++ ":00")]),
       ("pressure_level", .arr ((normalizeLevels level).map JVal.str)),
       ("data_format", .str "netcdf"),
       ("download_format", .str "unarchived"),
       ("area", .arr [.int 70, .int (-20), .int 30, .int 50])] ∧
    (fmt4 t.year).length = 4 ∧ (fmt2 t.month).length = 2 ∧
    (fmt2 t.day).length = 2 ∧ (fmt2 t.hour).length = 2 ∧
    (∀ m' : Nat, canonicalMapping «variables» level
        ⟨t.year, t.month, t.day, t.hour, m'⟩
      = canonicalMapping «variables» level t) ∧
    cacheTarget cache_dir «variables» level t
      = cache_dir ++ "/" ++ ("era5_"
          ++ request_hash (canonicalMapping «variables» level t) ++ ".nc") ∧
    (cacheKey «variables» level t).length = 12 := by
  refine ⟨rfl, fmt4_length _ hy, fmt2_length _ hm, fmt2_length _ hd,
    fmt2_length _ hh, ?_, rfl, request_hash_length _⟩
  intro m'
  cases t
  rfl

/-- Witness for C6 at the spec's concrete scenario:
`variables=["t"], level=850, time parsed as 2025-03-02 00:00` yields
`pressure_level=["850"]`, `year=["2025"]`, `month=["03"]`, `day=["02"]`,
`time=["00:00"]` and a 12-character digest. -/
theorem resolve_canonical_mapping_witness :
    tsMarch.year ≤ 9999 ∧ tsMarch.month ≤ 99 ∧ tsMarch.day ≤ 99 ∧
    tsMarch.hour ≤ 99 ∧
    canonicalMapping varT (.scalar (.int 850)) tsMarch =
      [("product_type", .arr [.str "reanalysis"]),
       ("variable", varT),
       ("year", .arr [.str "2025"]),
       ("month", .arr [.str "03"]),
       ("day", .arr [.str "02"]),
       ("time", .arr [.str "00:00"]),
       ("pressure_level", .arr [.str "850"]),
       ("data_format", .str "netcdf"),
       ("download_format", .str "unarchived"),
       ("area", .arr [.int 70, .int (-20), .int 30, .int 50])] ∧
    (cacheKey varT (.scalar (.int 850)) tsMarch).length = 12 :=
  ⟨by decide, by decide, by decide, by decide,
   (resolve_canonical_mapping "cache" varT (.scalar (.int 850)) tsMarch
     (by decide) (by decide) (by decide) (by decide)).1,
   (resolve_canonical_mapping "cache" varT (.scalar (.int 850)) tsMarch
     (by decide) (by decide) (by decide) (by decide)).2.2.2.2.2.2.2⟩

set_option maxRecDepth 2000000 in
/-- C7: two level sequences equal as sets but differently ordered —
`[850, 500]` and `[500, 850]` — give different cache digests and hence
different target paths, both at the key computation and in the path
returned by resolve: levels are neither sorted nor deduplicated before
canonicalization and hashing. -/
theorem pressure_level_order_sensitive :
    [PyLevel.int 850, PyLevel.int 500] ≠ [PyLevel.int 500, PyLevel.int 850] ∧
    ([PyLevel.int 850, PyLevel.int 500].Perm
      [PyLevel.int 500, PyLevel.int 850]) ∧
    cacheKey varT (.seq [.int 850, .int 500]) tsMarch
      ≠ cacheKey varT (.seq [.int 500, .int 850]) tsMarch ∧
    cacheTarget "cache" varT (.seq [.int 850, .int 500]) tsMarch
      ≠ cacheTarget "cache" varT (.seq [.int 500, .int 850]) tsMarch ∧
    resolvedPath (get_analysis_plots_data mockToDatetime mockDownload "cache"
        varT (.seq [.int 850, .int 500]) (some "2025-03-02T00:00") emptyFS)
      ≠ resolvedPath (get_analysis_plots_data mockToDatetime mockDownload
        "cache" varT (.seq [.int 500, .int 850]) (some "2025-03-02T00:00")
        emptyFS) :=
  ⟨by decide, List.Perm.swap _ _ _, by decide, by decide, by decide⟩

/-- C9: differently-typed but equal level inputs are cache-equivalent: an
integer scalar `n`, its string form `str(n)`, and the one-element list
`[n]` normalize to the same level list and so produce the identical
canonical mapping, digest, target path and resolve result. -/
theorem scalar_level_type_insensitive (n : Int)
    (to_datetime : String → Except Unit Timestamp)
    (download_era5_data : List (String × JVal) → String → FS → FS)
    (cache_dir : String) («variables» : JVal) (time : Option String)
    (fs : FS) (t : Timestamp) :
    normalizeLevels (.scalar (.int n))
      = normalizeLevels (.scalar (.str (intDec n))) ∧
    normalizeLevels (.scalar (.int n)) = normalizeLevels (.seq [.int n]) ∧
    canonicalMapping «variables» (.scalar (.int n)) t
      = canonicalMapping «variables» (.scalar (.str (intDec n))) t ∧
    canonicalMapping «variables» (.scalar (.int n)) t
      = canonicalMapping «variables» (.seq [.int n]) t ∧
    cacheTarget cache_dir «variables» (.scalar (.int n)) t
      = cacheTarget cache_dir «variables» (.scalar (.str (intDec n))) t ∧
    cacheTarget cache_dir «variables» (.scalar (.int n)) t
      = cacheTarget cache_dir «variables» (.seq [.int n]) t ∧
    get_analysis_plots_data to_datetime download_era5_data cache_dir
        «variables» (.scalar (.int n)) time fs
      = get_analysis_plots_data to_datetime download_era5_data cache_dir
        «variables» (.scalar (.str (intDec n))) time fs ∧
    get_analysis_plots_data to_datetime download_era5_data cache_dir
        «variables» (.scalar (.int n)) time fs
      = get_analysis_plots_data to_datetime download_era5_data cache_dir
        «variables» (.seq [.int n]) time fs :=
  ⟨rfl, rfl, rfl, rfl, rfl, rfl, rfl, rfl⟩

/-- Reduction of resolve once the mandatory time is present and parses:
the call is an existence check on the target, then at most one download
and a re-check. -/
theorem resolve_parsed
    (to_datetime : String → Except Unit Timestamp)
    (download_era5_data : List (String × JVal) → String → FS → FS)
    (cache_dir : String) («variables» : JVal) (level : LevelArg)
    (timeStr : String) (t : Timestamp) (fs : FS)
    (hp : to_datetime timeStr = .ok t) :
    get_analysis_plots_data to_datetime download_era5_data cache_dir
        «variables» level (some timeStr) fs
      = (if fs.pathExists (cacheTarget cache_dir «variables» level t) = true
         then .ok (cacheTarget cache_dir «variables» level t, fs, 0)
         else if (download_era5_data (canonicalMapping «variables» level t)
              (cacheTarget cache_dir «variables» level t) fs).pathExists
              (cacheTarget cache_dir «variables» level t) = true
         then .ok (cacheTarget cache_dir «variables» level t,
              download_era5_data (canonicalMapping «variables» level t)
                (cacheTarget cache_dir «variables» level t) fs, 1)
         else .error (.runtimeError ("ERA5 download failed: "
              ++ cacheTarget cache_dir «variables» level t))) := by
  simp only [get_analysis_plots_data, hp]
  rfl

/-- C2: when the computed target file already exists, resolve returns it
immediately with the filesystem untouched and zero download invocations,
for every download collaborator and with no inspection of the file's
content; and after any successful resolve, a second call with identical
logical parameters performs zero downloads. -/
theorem cache_hit_no_redownload
    (to_datetime : String → Except Unit Timestamp)
    (download_era5_data : List (String × JVal) → String → FS → FS)
    (cache_dir : String) («variables» : JVal) (level : LevelArg)
    (timeStr : String) (t : Timestamp) (fs : FS)
    (hp : to_datetime timeStr = .ok t) :
    (fs.pathExists (cacheTarget cache_dir «variables» level t) = true →
      get_analysis_plots_data to_datetime download_era5_data cache_dir
          «variables» level (some timeStr) fs
        = .ok (cacheTarget cache_dir «variables» level t, fs, 0)) ∧
    (∀ p fs' n,
      get_analysis_plots_data to_datetime download_era5_data cache_dir
          «variables» level (some timeStr) fs = .ok (p, fs', n) →
      get_analysis_plots_data to_datetime download_era5_data cache_dir
          «variables» level (some timeStr) fs' = .ok (p, fs', 0)) := by
  have hred := resolve_parsed to_datetime download_era5_data cache_dir
    «variables» level timeStr t fs hp
  constructor
  · intro hex
    rw [hred, if_pos hex]
  · intro p fs' n h
    rw [hred] at h
    by_cases hex : fs.pathExists (cacheTarget cache_dir «variables» level t)
        = true
    · rw [if_pos hex] at h
      injection h with h1
      simp only [Prod.mk.injEq] at h1
      obtain ⟨rfl, rfl, rfl⟩ := h1
      rw [hred, if_pos hex]
    · rw [if_neg hex] at h
      by_cases hdl : (download_era5_data (canonicalMapping «variables» level t)
            (cacheTarget cache_dir «variables» level t) fs).pathExists
          (cacheTarget cache_dir «variables» level t) = true
      · rw [if_pos hdl] at h
        injection h with h1
        simp only [Prod.mk.injEq] at h1
        obtain ⟨rfl, rfl, rfl⟩ := h1
        rw [resolve_parsed to_datetime download_era5_data cache_dir
          «variables» level timeStr t _ hp, if_pos hdl]
      · rw [if_neg hdl] at h
        exact Except.noConfusion h

/-- Witness for C2 at the spec scenario with the target already cached:
the parse succeeds, the file exists, and the theorem applies. -/
theorem cache_hit_no_redownload_witness :
    mockToDatetime "2025-03-02T00:00" = .ok tsMarch ∧
    hitFS.pathExists (cacheTarget "cache" varT (.scalar (.int 850)) tsMarch)
      = true ∧
    get_analysis_plots_data mockToDatetime mockDownload "cache" varT
        (.scalar (.int 850)) (some "2025-03-02T00:00") hitFS
      = .ok (cacheTarget "cache" varT (.scalar (.int 850)) tsMarch,
             hitFS, 0) :=
  ⟨rfl, by simp [hitFS, FS.pathExists],
   (cache_hit_no_redownload mockToDatetime mockDownload "cache" varT
     (.scalar (.int 850)) "2025-03-02T00:00" tsMarch hitFS rfl).1
     (by simp [hitFS, FS.pathExists])⟩

/-- C3: when the target file does not exist, resolve invokes the download
collaborator exactly once, on the canonical mapping and the target path;
if the target exists afterwards the call returns it (with one download),
if not it raises `RuntimeError` whose message references the expected
target, and a successful return always carries a path existing in the
resulting filesystem state. -/
theorem cache_miss_downloads_once
    (to_datetime : String → Except Unit Timestamp)
    (download_era5_data : List (String × JVal) → String → FS → FS)
    (cache_dir : String) («variables» : JVal) (level : LevelArg)
    (timeStr : String) (t : Timestamp) (fs : FS)
    (hp : to_datetime timeStr = .ok t)
    (hmiss : fs.pathExists (cacheTarget cache_dir «variables» level t)
      = false) :
    ((download_era5_data (canonicalMapping «variables» level t)
          (cacheTarget cache_dir «variables» level t) fs).pathExists
        (cacheTarget cache_dir «variables» level t) = true →
      get_analysis_plots_data to_datetime download_era5_data cache_dir
          «variables» level (some timeStr) fs
        = .ok (cacheTarget cache_dir «variables» level t,
            download_era5_data (canonicalMapping «variables» level t)
              (cacheTarget cache_dir «variables» level t) fs, 1)) ∧
    ((download_era5_data (canonicalMapping «variables» level t)
          (cacheTarget cache_dir «variables» level t) fs).pathExists
        (cacheTarget cache_dir «variables» level t) = false →
      get_analysis_plots_data to_datetime download_era5_data cache_dir
          «variables» level (some timeStr) fs
        = .error (.runtimeError ("ERA5 download failed: "
            ++ cacheTarget cache_dir «variables» level t))) ∧
    (∀ p fs' n,
      get_analysis_plots_data to_datetime download_era5_data cache_dir
          «variables» level (some timeStr) fs = .ok (p, fs', n) →
      p = cacheTarget cache_dir «variables» level t ∧
      fs' = download_era5_data (canonicalMapping «variables» level t)
        (cacheTarget cache_dir «variables» level t) fs ∧
      n = 1 ∧ fs'.pathExists p = true) := by
  have hred := resolve_parsed to_datetime download_era5_data cache_dir
    «variables» level timeStr t fs hp
  have hmiss' : ¬ (fs.pathExists (cacheTarget cache_dir «variables» level t)
      = true) := by simp [hmiss]
  refine ⟨?_, ?_, ?_⟩
  · intro hdl
    rw [hred, if_neg hmiss', if_pos hdl]
  · intro hdl
    have hdl' : ¬ ((download_era5_data (canonicalMapping «variables» level t)
          (cacheTarget cache_dir «variables» level t) fs).pathExists
        (cacheTarget cache_dir «variables» level t) = true) := by simp [hdl]
    rw [hred, if_neg hmiss', if_neg hdl']
  · intro p fs' n h
    rw [hred, if_neg hmiss'] at h
    by_cases hdl : (download_era5_data (canonicalMapping «variables» level t)
          (cacheTarget cache_dir «variables» level t) fs).pathExists
        (cacheTarget cache_dir «variables» level t) = true
    · rw [if_pos hdl] at h
      injection h with h1
      simp only [Prod.mk.injEq] at h1
      obtain ⟨rfl, rfl, rfl⟩ := h1
      exact ⟨rfl, rfl, rfl, hdl⟩
    · rw [if_neg hdl] at h
      exact Except.noConfusion h

/-- Witness for C3 at the spec scenario on an empty cache, with both a
writing and a non-writing download collaborator. -/
theorem cache_miss_downloads_once_witness :
    mockToDatetime "2025-03-02T00:00" = .ok tsMarch ∧
    emptyFS.pathExists (cacheTarget "cache" varT (.scalar (.int 850)) tsMarch)
      = false ∧
    get_analysis_plots_data mockToDatetime mockDownload "cache" varT
        (.scalar (.int 850)) (some "2025-03-02T00:00") emptyFS
      = .ok (cacheTarget "cache" varT (.scalar (.int 850)) tsMarch,
          mockDownload (canonicalMapping varT (.scalar (.int 850)) tsMarch)
            (cacheTarget "cache" varT (.scalar (.int 850)) tsMarch) emptyFS,
          1) ∧
    get_analysis_plots_data mockToDatetime mockDownloadNoop "cache" varT
        (.scalar (.int 850)) (some "2025-03-02T00:00") emptyFS
      = .error (.runtimeError ("ERA5 download failed: "
          ++ cacheTarget "cache" varT (.scalar (.int 850)) tsMarch)) :=
  ⟨rfl, rfl,
   (cache_miss_downloads_once mockToDatetime mockDownload "cache" varT
     (.scalar (.int 850)) "2025-03-02T00:00" tsMarch emptyFS rfl rfl).1
     (by simp [mockDownload, FS.pathExists]),
   (cache_miss_downloads_once mockToDatetime mockDownloadNoop "cache" varT
     (.scalar (.int 850)) "2025-03-02T00:00" tsMarch emptyFS rfl rfl).2.1
     rfl⟩

/-- C8: the request descriptor's conversion to a mapping depends only on
the object's own fields: it returns a new mapping whose key sequence is
exactly product_type, variable, year, month, day, time, pressure_level,
data_format, download_format, area, with the stored field values handed
over unmodified — so faithfully that the descriptor can be reconstructed
from the mapping (`to_dict` is injective), and the descriptor itself is
left unchanged (it is a pure value; nothing in the embedding mutates it). -/
theorem era5_request_to_dict_frame (r r' : Era5Request) :
    r.to_dict.map Prod.fst =
      ["product_type", "variable", "year", "month", "day", "time",
       "pressure_level", "data_format", "download_format", "area"] ∧
    r.to_dict =
      [("product_type", JVal.arr (r.product_type.map JVal.str)),
       ("variable", r.«variable»),
       ("year", JVal.arr (r.year.map JVal.str)),
       ("month", JVal.arr (r.month.map JVal.str)),
       ("day", JVal.arr (r.day.map JVal.str)),
       ("time", JVal.arr (r.time.map JVal.str)),
       ("pressure_level", JVal.arr (r.pressure_level.map JVal.str)),
       ("data_format", JVal.str r.data_format),
       ("download_format", JVal.str r.download_format),
       ("area", JVal.arr (r.area.map JVal.int))] ∧
    (r.to_dict = r'.to_dict → r = r') := by
  refine ⟨rfl, rfl, ?_⟩
  intro h
  have hstr : Function.Injective JVal.str := fun a b hab => JVal.str.inj hab
  have hint : Function.Injective JVal.int := fun a b hab => JVal.int.inj hab
  cases r; cases r'
  simp only [Era5Request.to_dict, List.cons.injEq, Prod.mk.injEq, true_and,
    and_true, JVal.arr.injEq, JVal.str.injEq] at h
  obtain ⟨h1, h2, h3, h4, h5, h6, h7, h8, h9, h10⟩ := h
  simp only [Era5Request.mk.injEq]
  exact ⟨List.map_injective_iff.mpr hstr h1, h2,
    List.map_injective_iff.mpr hstr h3, List.map_injective_iff.mpr hstr h4,
    List.map_injective_iff.mpr hstr h5, List.map_injective_iff.mpr hstr h6,
    List.map_injective_iff.mpr hstr h7, h8, h9,
    List.map_injective_iff.mpr hint h10⟩

/-- Witness for C8 at the request the spec scenario constructs. -/
theorem era5_request_to_dict_frame_witness :
    (buildRequest varT (.scalar (.int 850)) tsMarch).to_dict.map Prod.fst =
      ["product_type", "variable", "year", "month", "day", "time",
       "pressure_level", "data_format", "download_format", "area"] ∧
    ((buildRequest varT (.scalar (.int 850)) tsMarch).to_dict
        = (buildRequest varT (.scalar (.int 850)) tsMarch).to_dict →
      buildRequest varT (.scalar (.int 850)) tsMarch
        = buildRequest varT (.scalar (.int 850)) tsMarch) :=
  ⟨(era5_request_to_dict_frame (buildRequest varT (.scalar (.int 850)) tsMarch)
      (buildRequest varT (.scalar (.int 850)) tsMarch)).1,
   (era5_request_to_dict_frame (buildRequest varT (.scalar (.int 850)) tsMarch)
      (buildRequest varT (.scalar (.int 850)) tsMarch)).2.2⟩

/-- C10: resolve performs no validation of `variables`: any JSON value is
embedded verbatim as the canonical mapping's `variable` field, and the
only errors this layer can surface are the missing-time usage error, a
propagated parse error for an unparseable time, and the download-failure
error for a target still absent after the download — never an error about
the shape or content of `variables`. -/
theorem resolve_no_variables_validation
    (to_datetime : String → Except Unit Timestamp)
    (download_era5_data : List (String × JVal) → String → FS → FS)
    (cache_dir : String) («variables» : JVal) (level : LevelArg)
    (time : Option String) (fs : FS) :
    (∀ t : Timestamp, (canonicalMapping «variables» level t).lookup "variable"
        = some «variables») ∧
    (∀ e, get_analysis_plots_data to_datetime download_era5_data cache_dir
        «variables» level time fs = .error e →
      (time = Option.none ∧ e = .valueError "time not available") ∨
      (∃ s, time = some s ∧ to_datetime s = .error () ∧ e = .parseError) ∨
      (∃ s t, time = some s ∧ to_datetime s = .ok t ∧
        fs.pathExists (cacheTarget cache_dir «variables» level t) = false ∧
        (download_era5_data (canonicalMapping «variables» level t)
            (cacheTarget cache_dir «variables» level t) fs).pathExists
          (cacheTarget cache_dir «variables» level t) = false ∧
        e = .runtimeError ("ERA5 download failed: "
            ++ cacheTarget cache_dir «variables» level t))) := by
  constructor
  · intro t
    rfl
  · intro e he
    cases time with
    | none =>
      left
      refine ⟨rfl, ?_⟩
      have : (Except.error (PyError.valueError "time not available")
          : Except PyError (String × FS × Nat)) = .error e := he
      injection this with h1
      exact h1.symm
    | some s =>
      right
      cases hpt : to_datetime s with
      | error u =>
        left
        cases u
        refine ⟨s, rfl, hpt, ?_⟩
        simp only [get_analysis_plots_data, hpt] at he
        injection he with h1
        exact h1.symm
      | ok t =>
        right
        rw [resolve_parsed to_datetime download_era5_data cache_dir
          «variables» level s t fs hpt] at he
        by_cases hex : fs.pathExists (cacheTarget cache_dir «variables»
            level t) = true
        · rw [if_pos hex] at he
          exact Except.noConfusion he
        · rw [if_neg hex] at he
          by_cases hdl : (download_era5_data
                (canonicalMapping «variables» level t)
                (cacheTarget cache_dir «variables» level t) fs).pathExists
              (cacheTarget cache_dir «variables» level t) = true
          · rw [if_pos hdl] at he
            exact Except.noConfusion he
          · rw [if_neg hdl] at he
            injection he with h1
            exact ⟨s, t, rfl, hpt, by simpa using hex, by simpa using hdl,
              h1.symm⟩

/-- Witness for C10 at the spec scenario: the variable field is embedded
verbatim, and the error characterization applies to the download-failure
run with the non-writing collaborator. -/
theorem resolve_no_variables_validation_witness :
    (canonicalMapping varT (.scalar (.int 850)) tsMarch).lookup "variable"
      = some varT ∧
    (∀ e, get_analysis_plots_data mockToDatetime mockDownloadNoop "cache"
        varT (.scalar (.int 850)) (some "2025-03-02T00:00") emptyFS
          = .error e →
      ((some "2025-03-02T00:00" : Option String) = Option.none
        ∧ e = .valueError "time not available") ∨
      (∃ s, (some "2025-03-02T00:00" : Option String) = some s
        ∧ mockToDatetime s = .error () ∧ e = .parseError) ∨
      (∃ s t, (some "2025-03-02T00:00" : Option String) = some s
        ∧ mockToDatetime s = .ok t ∧
        emptyFS.pathExists (cacheTarget "cache" varT (.scalar (.int 850)) t)
          = false ∧
        (mockDownloadNoop (canonicalMapping varT (.scalar (.int 850)) t)
            (cacheTarget "cache" varT (.scalar (.int 850)) t)
            emptyFS).pathExists
          (cacheTarget "cache" varT (.scalar (.int 850)) t) = false ∧
        e = .runtimeError ("ERA5 download failed: "
            ++ cacheTarget "cache" varT (.scalar (.int 850)) t))) :=
  ⟨(resolve_no_variables_validation mockToDatetime mockDownloadNoop "cache"
      varT (.scalar (.int 850)) (some "2025-03-02T00:00") emptyFS).1 tsMarch,
   (resolve_no_variables_validation mockToDatetime mockDownloadNoop "cache"
      varT (.scalar (.int 850)) (some "2025-03-02T00:00") emptyFS).2⟩
